import Mathlib

/-!
Verification development for the AutoCad standalone SCAD server.

The embedding covers the sandboxed compilation execution engine:
  * the job coordinator `renderLocally` (src/server/index.js, lines 149-206),
    modelled as a deterministic step machine over the settlement state of the
    returned promise, the pending deadline timer, and the spawned worker;
  * the `/api/render` HTTP boundary (src/server/index.js, lines 133-144);
  * the host-environment shim of the worker wrapper (ResponseMock, the
    fetch replacement, and the WebAssembly.instantiateStreaming replacement).

JavaScript machine details are made explicit: bytes are natural numbers
(values of a Uint8Array / Buffer), base64 encoding follows
Buffer.toString with the standard alphabet and '=' padding, promise
settlement is single-assignment (a resolve or reject after the first
settlement is a no-op), and `parseInt(s, 10)` returning NaN is `none`.
-/

namespace AutoCad

/-- Byte sequences (contents of a Buffer / Uint8Array). -/
abbrev Bytes := List Nat

/-- The standard base64 alphabet used by Node's Buffer.toString. -/
def base64Alphabet : List Char :=
  [ 'A', 'B', 'C', 'D', 'E', 'F', 'G', 'H', 'I', 'J', 'K', 'L', 'M',
    'N', 'O', 'P', 'Q', 'R', 'S', 'T', 'U', 'V', 'W', 'X', 'Y', 'Z',
    'a', 'b', 'c', 'd', 'e', 'f', 'g', 'h', 'i', 'j', 'k', 'l', 'm',
    'n', 'o', 'p', 'q', 'r', 's', 't', 'u', 'v', 'w', 'x', 'y', 'z',
    '0', '1', '2', '3', '4', '5', '6', '7', '8', '9', '+', '/' ]

/-- Character for a 6-bit group. -/
def base64Char (n : Nat) : Char := base64Alphabet.getD (n % 64) '='

/-- Base64 of a byte list, three input bytes to four output characters,
with '=' padding on a short final group. -/
def base64Chars : Bytes → List Char
  | [] => []
  | [b1] =>
      let n := (b1 % 256) * 65536
      [base64Char (n / 262144), base64Char (n / 4096 % 64), '=', '=']
  | [b1, b2] =>
      let n := (b1 % 256) * 65536 + (b2 % 256) * 256
      [base64Char (n / 262144), base64Char (n / 4096 % 64),
       base64Char (n / 64 % 64), '=']
  | b1 :: b2 :: b3 :: rest =>
      let n := (b1 % 256) * 65536 + (b2 % 256) * 256 + b3 % 256
      base64Char (n / 262144) :: base64Char (n / 4096 % 64) ::
        base64Char (n / 64 % 64) :: base64Char (n % 64) :: base64Chars rest

/-- Models `Buffer.from(out).toString('base64')`. -/
def base64Encode (bs : Bytes) : String := String.mk (base64Chars bs)

example : base64Encode [77] = "TQ==" := by decide
example : base64Encode [77, 97] = "TWE=" := by decide
example : base64Encode [77, 97, 110] = "TWFu" := by decide
example : base64Encode [77, 97, 110, 77] = "TWFuTQ==" := by decide

/-!
## Job coordinator: `renderLocally` (src/server/index.js, lines 149-206)

`renderLocally(scadCode)` returns a `new Promise`; inside it spawns a worker,
arms a deadline timer, and registers handlers for worker `message`, `error`
and `exit` events.  We model the observable state of one job — the promise's
settlement slot, whether the deadline timer is still pending, and whether
`w.terminate()` has been called — and each handler as a deterministic step
on that state.  Promise semantics make `resolve`/`reject` single-assignment:
after the first settlement, both are no-ops; `settle` models exactly that.
-/

/-- Rejection message of the timeout handler:
`reject(new Error('OpenSCAD WASM worker timed out'))`. -/
def timeoutMessage : String := "OpenSCAD WASM worker timed out"

/-- Rejection message for a missing/empty output list:
`reject(new Error('No output produced by OpenSCAD WASM worker'))`. -/
def noOutputMessage : String := "No output produced by OpenSCAD WASM worker"

/-- Rejection message of the `exit` handler for a nonzero code:
`reject(new Error(`OpenSCAD worker exited with code ${code}`))`. -/
def exitMessage (code : Int) : String :=
  "OpenSCAD worker exited with code " ++ toString code

/-- Settlement of the promise returned by `renderLocally`: either resolved
with a base64 STL string or rejected with an Error carrying a message. -/
inductive Outcome where
  | resolved (stlBase64 : String)
  | rejected (message : String)
deriving DecidableEq

/-- Observable per-job state: the promise's settlement slot (`none` while
pending), whether the deadline timer is still pending, and whether
`w.terminate()` has been called on the worker. -/
structure JobState where
  settled : Option Outcome
  timerActive : Bool
  workerTerminated : Bool
deriving DecidableEq

/-- State right after the promise executor ran: promise pending, timer armed
by `setTimeout`, worker spawned and not terminated. -/
def initState : JobState :=
  { settled := none, timerActive := true, workerTerminated := false }

/-- Shape of a worker `message` event as inspected by the handler:
`msg.result` present (with its `outputs` field, possibly missing),
`msg.error` present, or neither (ignored by both `if` branches). -/
inductive WorkerMsg where
  | result (outputs : Option (List (String × Bytes)))
  | workerError (e : String)
  | nonTerminal
deriving DecidableEq

/-- A terminal-shaped message carries a `result` or an `error` field. -/
def TerminalShaped : WorkerMsg → Bool
  | .nonTerminal => false
  | _ => true

/-- Events that can reach the job's handlers after the executor returns. -/
inductive JobEvent where
  | timerFired
  | message (m : WorkerMsg)
  | errorEvent (err : String)
  | exited (code : Int)
deriving DecidableEq

/-- Promise settlement is single-assignment: `resolve`/`reject` after the
first settlement are no-ops. -/
def settle (s : JobState) (o : Outcome) : JobState :=
  match s.settled with
  | some _ => s
  | none => { s with settled := some o }

/-- One handler invocation, line by line from src/server/index.js:
  * timer expiry (159-162): `w.terminate(); reject(Timeout)` — it only runs
    while the timeout is still pending;
  * `message` with `msg.result` (165-177): `clearTimeout`; a non-empty
    `result.outputs` resolves with base64 of the first entry's bytes after
    `w.terminate()`; otherwise `w.terminate(); reject(NoOutputProduced)`;
  * `message` with `msg.error` (178-182): `clearTimeout; w.terminate();
    reject(msg.error)`;
  * other messages: both `if` branches are skipped — no effect;
  * worker `error` event (185-187): `reject(err)` only — no `w.terminate()`,
    no `clearTimeout`;
  * worker `exit` event (189-194): for a nonzero code `reject(...)` only —
    no `w.terminate()`, no `clearTimeout`. -/
def step (s : JobState) (e : JobEvent) : JobState :=
  match e with
  | .timerFired =>
      if s.timerActive then
        settle { s with timerActive := false, workerTerminated := true }
          (.rejected timeoutMessage)
      else s
  | .message m =>
      match m with
      | .result outputs =>
          match outputs with
          | some ((_, bytes) :: _) =>
              settle { s with timerActive := false, workerTerminated := true }
                (.resolved (base64Encode bytes))
          | some [] =>
              settle { s with timerActive := false, workerTerminated := true }
                (.rejected noOutputMessage)
          | none =>
              settle { s with timerActive := false, workerTerminated := true }
                (.rejected noOutputMessage)
      | .workerError e =>
          settle { s with timerActive := false, workerTerminated := true }
            (.rejected e)
      | .nonTerminal => s
  | .errorEvent err => settle s (.rejected err)
  | .exited code =>
      if code ≠ 0 then settle s (.rejected (exitMessage code)) else s

/-- A whole sequence of handler invocations. -/
def run (s : JobState) (es : List JobEvent) : JobState := es.foldl step s

/-!
## Deadline timer configuration

`setTimeout(..., parseInt(process.env.OPENSCAD_WASM_TIMEOUT || '120000', 10))`.
-/

/-- Models `parseInt(s, 10)`: skip leading whitespace, an optional sign, then
the maximal run of decimal digits; no digits at all gives NaN (`none`). -/
def jsParseInt (s : String) : Option Int :=
  let cs := s.data.dropWhile (fun c => c = ' ' ∨ c = '\t' ∨ c = '\n' ∨ c = '\r')
  let signAndRest : Int × List Char :=
    match cs with
    | '-' :: rest => (-1, rest)
    | '+' :: rest => (1, rest)
    | _ => (1, cs)
  let digits := signAndRest.2.takeWhile (fun c => '0' ≤ c ∧ c ≤ '9')
  if digits = [] then none
  else some (signAndRest.1 *
    (Int.ofNat (digits.foldl (fun acc c => acc * 10 + (c.toNat - 48)) 0)))

/-- The per-job timeout in milliseconds as a function of the
`OPENSCAD_WASM_TIMEOUT` environment setting (`none` = unset; the empty
string is falsy in JavaScript, so `||` also substitutes the default). -/
def timeoutMs (env : Option String) : Option Int :=
  jsParseInt
    (match env with
     | none => "120000"
     | some s => if s = "" then "120000" else s)

example : timeoutMs none = some 120000 := by decide
example : timeoutMs (some "5000") = some 5000 := by decide
example : timeoutMs (some "junk") = none := by decide

/-!
## HTTP boundary: `app.post('/api/render')` (src/server/index.js, lines 133-144)

The handler destructures `scadCode` from the body, replies 400 when it is
falsy, otherwise awaits `renderLocally(scadCode)`; a fulfilled promise gives
`res.json({ stlData, scadCode })` and a rejection is caught and mapped to
`res.status(500).json({ error: 'Internal server error during rendering' })`.
The eventual settlement of `renderLocally` is abstracted as a function from
the submitted code to an `Outcome`.
-/

/-- The JSON reply of the render endpoint (`status` is the HTTP status,
the remaining fields are the possible JSON body fields). -/
structure ApiResponse where
  status : Nat
  stlData : Option String
  scadCode : Option String
  errorField : Option String
deriving DecidableEq

/-- `res.status(400).json({ error: 'SCAD code is required' })`. -/
def invalidInputResponse : ApiResponse :=
  { status := 400, stlData := none, scadCode := none,
    errorField := some "SCAD code is required" }

/-- The single text used by the catch-all:
`res.status(500).json({ error: 'Internal server error during rendering' })`. -/
def genericServerErrorText : String := "Internal server error during rendering"

/-- The `/api/render` handler.  The second component records whether
`renderLocally` was invoked (hence whether a worker was spawned). -/
def handleRenderRequest (scadCode : Option String)
    (render : String → Outcome) : ApiResponse × Bool :=
  match scadCode with
  | none => (invalidInputResponse, false)
  | some code =>
      if code = "" then (invalidInputResponse, false)
      else
        match render code with
        | .resolved b64 =>
            ({ status := 200, stlData := some b64, scadCode := some code,
               errorField := none }, true)
        | .rejected _msg =>
            ({ status := 500, stlData := none, scadCode := none,
               errorField := some genericServerErrorText }, true)

/-!
## Host-environment shim (worker wrapper, src/unnamed/part_003)

`ResponseMock`, the `global.fetch` replacement resolving asset names against
the local filesystem, and the `WebAssembly.instantiateStreaming` replacement.
Paths are written relative to the project root (the wrapper builds them with
`path.join(__dirname, '..', ...)`, and `__dirname` is the `server` directory).
-/

/-- The duck-typed response object.  The constructor always sets
`ok = true`, `status = 200` and an empty header map. -/
structure ResponseMock where
  body : Bytes
  ok : Bool
  status : Nat
  headers : List (String × String)
deriving DecidableEq

/-- `new ResponseMock(body)`. -/
def mkResponseMock (body : Bytes) : ResponseMock :=
  { body := body, ok := true, status := 200, headers := [] }

/-- `arrayBuffer()`: for a Buffer body, the slice of the underlying buffer
covering exactly the Buffer's bytes — i.e. the body's bytes. -/
def ResponseMock.arrayBuffer (r : ResponseMock) : Bytes := r.body

/-- `text()`: `Buffer.toString()` of the body, modelled bytewise
(exact for the ASCII content the kernel reads this way). -/
def ResponseMock.text (r : ResponseMock) : String :=
  String.mk (r.body.map (fun b => Char.ofNat b))

/-- `blob()`: a blob over the same bytes. -/
def ResponseMock.blob (r : ResponseMock) : Bytes := r.body

/-- `clone()`: `new ResponseMock(this.body)`. -/
def ResponseMock.clone (r : ResponseMock) : ResponseMock := mkResponseMock r.body

/-- What the filesystem yields for a path the wrapper probes:
`okBytes` when `fs.existsSync` is true and `fs.readFileSync` succeeds,
`readFailure` when the file exists but reading throws. -/
inductive FileOutcome where
  | okBytes (bs : Bytes)
  | readFailure (err : String)
deriving DecidableEq

/-- A filesystem: `none` at a path means `fs.existsSync(path)` is false. -/
abbrev Fs := String → Option FileOutcome

/-- First candidate: the openscad-playground dist directory. -/
def distPath1 (resourceName : String) : String :=
  "node_modules/openscad-playground/dist/" ++ resourceName

/-- Second candidate: its wasm subdirectory. -/
def distPath2 (resourceName : String) : String :=
  "node_modules/openscad-playground/dist/wasm/" ++ resourceName

/-- Third candidate: the browserfs dist directory. -/
def distPath3 (resourceName : String) : String :=
  "node_modules/browserfs/dist/" ++ resourceName

/-- The ordered candidate list `distPaths` of the fetch replacement. -/
def distPaths (resourceName : String) : List String :=
  [distPath1 resourceName, distPath2 resourceName, distPath3 resourceName]

/-- `String(url).replace(/\/$/, '').split('/').pop()`:
the regex (no global flag) removes a single trailing `'/'` if present, and
popping the split is the suffix after the last remaining `'/'`. -/
def resourceNameOf (url : String) : String :=
  let cs := url.data
  let stripped := if cs.getLast? = some '/' then cs.dropLast else cs
  String.mk ((stripped.reverse.takeWhile (fun c => c ≠ '/')).reverse)

example : resourceNameOf "http://x/dist/openscad.wasm" = "openscad.wasm" := by decide
example : resourceNameOf "openscad.js/" = "openscad.js" := by decide
example : resourceNameOf "a//" = "" := by decide

/-- The probing loop: `data` is set from the first candidate whose
`fs.existsSync` is true, and the loop exits (`break`); a throwing
`readFileSync` aborts to the surrounding `catch`. -/
def firstExisting (fs : Fs) : List String → Option FileOutcome
  | [] => none
  | p :: rest =>
      match fs p with
      | some o => some o
      | none => firstExisting fs rest

/-- The fetch replacement for a resolved resource name: bytes of the first
existing candidate; an unresolved name yields `Buffer.from([])` for `.wasm`
names and `Buffer.from('')` otherwise (both empty); a read failure is caught
and also yields an empty-body response. -/
def fetchForName (fs : Fs) (resourceName : String) : ResponseMock :=
  match firstExisting fs (distPaths resourceName) with
  | some (.okBytes bs) => mkResponseMock bs
  | some (.readFailure _) => mkResponseMock []
  | none =>
      if (".wasm".data).isSuffixOf resourceName.data
      then mkResponseMock []
      else mkResponseMock []

/-- `global.fetch(url)`: a total function — every path inside the source's
`try` returns a `ResponseMock`, and the `catch` returns one too, so the
returned promise never rejects. -/
def fetchShim (fs : Fs) (url : String) : ResponseMock :=
  fetchForName fs (resourceNameOf url)

/-- Formalisation of the SPEC'S wording for claim C5 only ("normalize the
requested path (strip trailing separators)"): removes ALL trailing `'/'`
characters before taking the final segment.  To be compared against
`resourceNameOf`, the embedding of the source. -/
def specResourceName (url : String) : String :=
  let stripped := (url.data.reverse.dropWhile (fun c => c = '/')).reverse
  String.mk ((stripped.reverse.takeWhile (fun c => c ≠ '/')).reverse)

/-- The `WebAssembly.instantiateStreaming` replacement: await the (possibly
already resolved) response promise, await `response.arrayBuffer()`, and call
buffer-based `WebAssembly.instantiate` on the buffer; the `catch` re-throws,
so a rejected response promise propagates unchanged.  Buffer-based
instantiation is abstracted as a function argument. -/
def instantiateStreamingShim {Imports InstResult : Type}
    (instantiate : Bytes → Imports → Except String InstResult)
    (responsePromise : Except String ResponseMock)
    (imports : Imports) : Except String InstResult :=
  match responsePromise with
  | .error e => .error e
  | .ok response => instantiate (ResponseMock.arrayBuffer response) imports

/-!
## Lemma kit for the job state machine
-/

theorem settle_settled_of_some (s : JobState) (o o' : Outcome)
    (h : s.settled = some o) : (settle s o').settled = some o := by
  simp [settle, h]

theorem settle_settled_of_none (s : JobState) (o' : Outcome)
    (h : s.settled = none) : (settle s o').settled = some o' := by
  simp [settle, h]

theorem settle_isSome (s : JobState) (o : Outcome) :
    (settle s o).settled.isSome = true := by
  cases h : s.settled <;> simp [settle, h]

theorem settle_timerActive (s : JobState) (o : Outcome) :
    (settle s o).timerActive = s.timerActive := by
  cases h : s.settled <;> simp [settle, h]

theorem settle_workerTerminated (s : JobState) (o : Outcome) :
    (settle s o).workerTerminated = s.workerTerminated := by
  cases h : s.settled <;> simp [settle, h]

/-- Once the promise is settled, no later handler invocation changes the
settlement: `resolve`/`reject` on a settled promise are no-ops. -/
theorem step_settled_mono (s : JobState) (e : JobEvent) (o : Outcome)
    (h : s.settled = some o) : (step s e).settled = some o := by
  rcases e with _ | m | err | c
  · by_cases ht : s.timerActive <;> simp [step, settle, h, ht]
  · rcases m with outputs | e | _
    · rcases outputs with _ | (_ | ⟨⟨p, bytes⟩, rest⟩) <;> simp [step, settle, h]
    · simp [step, settle, h]
    · simp [step, h]
  · simp [step, settle, h]
  · by_cases hc : c = 0 <;> simp [step, settle, h, hc]

/-- A settled job whose timer is disarmed and whose worker is terminated is
absorbing: every further handler invocation leaves the state unchanged. -/
theorem step_closed (s : JobState) (o : Outcome) (hs : s.settled = some o)
    (ht : s.timerActive = false) (hw : s.workerTerminated = true)
    (e : JobEvent) : step s e = s := by
  have hrec : { s with timerActive := false, workerTerminated := true } = s := by
    cases s
    simp only [JobState.mk.injEq] at *
    simp_all
  rw [hs] at hrec
  rcases e with _ | m | err | c
  · simp [step, ht]
  · rcases m with outputs | e | _
    · rcases outputs with _ | (_ | ⟨⟨p, bytes⟩, rest⟩) <;>
        simp [step, hrec, settle, hs]
    · simp [step, hrec, settle, hs]
    · simp [step]
  · simp [step, settle, hs]
  · by_cases hc : c = 0 <;> simp [step, settle, hs, hc]

/-- A terminal-shaped message leaves the timer cleared and the worker
terminated, whatever the prior state. -/
theorem step_terminal_flags (s : JobState) (m : WorkerMsg)
    (hm : TerminalShaped m = true) :
    (step s (JobEvent.message m)).timerActive = false
    ∧ (step s (JobEvent.message m)).workerTerminated = true := by
  rcases m with outputs | e | _
  · rcases outputs with _ | (_ | ⟨⟨p, bytes⟩, rest⟩) <;>
      simp [step, settle_timerActive, settle_workerTerminated]
  · simp [step, settle_timerActive, settle_workerTerminated]
  · simp [TerminalShaped] at hm

/-- A terminal-shaped message leaves the promise settled. -/
theorem step_terminal_isSome (s : JobState) (m : WorkerMsg)
    (hm : TerminalShaped m = true) :
    (step s (JobEvent.message m)).settled.isSome = true := by
  rcases m with outputs | e | _
  · rcases outputs with _ | (_ | ⟨⟨p, bytes⟩, rest⟩) <;> simp [step, settle_isSome]
  · simp [step, settle_isSome]
  · simp [TerminalShaped] at hm

/-- An expired timer (one that was still pending) leaves the promise
settled, the timer disarmed and the worker terminated. -/
theorem step_timerFired_closed (s : JobState) (ht : s.timerActive = true) :
    (step s JobEvent.timerFired).settled.isSome = true
    ∧ (step s JobEvent.timerFired).timerActive = false
    ∧ (step s JobEvent.timerFired).workerTerminated = true := by
  simp [step, ht, settle_isSome, settle_timerActive, settle_workerTerminated]

/-!
## Claims
-/

/-- Claim C1, counterexample: on the worker `error`-event exit path the
handler only rejects — it neither calls `w.terminate()` nor clears the
deadline timer — so a freshly started job that receives a worker `error`
event is settled while the worker is unterminated and the timer handle is
still pending. -/
theorem renderLocally_errorEvent_leaves_worker_running :
    (run initState [JobEvent.errorEvent "worker fault"]).settled
      = some (Outcome.rejected "worker fault")
    ∧ (run initState [JobEvent.errorEvent "worker fault"]).workerTerminated = false
    ∧ (run initState [JobEvent.errorEvent "worker fault"]).timerActive = true := by
  decide

/-- Claim C1 (amended): the promise settles at most once (a settled job is
never re-settled by any handler); on the terminal-message and timeout exit
paths the handler terminates the worker and leaves no pending timer; on the
worker `error`-event and nonzero-exit paths the promise is rejected but the
handler neither terminates the worker nor clears the timer — the still-armed
deadline timer later fires and terminates the worker. -/
theorem renderLocally_settlement_and_termination :
    (∀ (s : JobState) (e : JobEvent) (o : Outcome),
        s.settled = some o → (step s e).settled = some o)
    ∧ (∀ (s : JobState) (m : WorkerMsg), TerminalShaped m = true →
        (step s (JobEvent.message m)).workerTerminated = true
        ∧ (step s (JobEvent.message m)).timerActive = false)
    ∧ (∀ (s : JobState), s.timerActive = true →
        (step s JobEvent.timerFired).workerTerminated = true
        ∧ (step s JobEvent.timerFired).timerActive = false)
    ∧ (∀ (s : JobState) (err : String),
        (s.settled = none →
          (step s (JobEvent.errorEvent err)).settled = some (Outcome.rejected err))
        ∧ (step s (JobEvent.errorEvent err)).workerTerminated = s.workerTerminated
        ∧ (step s (JobEvent.errorEvent err)).timerActive = s.timerActive)
    ∧ (∀ (s : JobState) (c : Int), c ≠ 0 →
        (s.settled = none →
          (step s (JobEvent.exited c)).settled
            = some (Outcome.rejected (exitMessage c)))
        ∧ (step s (JobEvent.exited c)).workerTerminated = s.workerTerminated
        ∧ (step s (JobEvent.exited c)).timerActive = s.timerActive) := by
  refine ⟨fun s e o h => step_settled_mono s e o h, ?_, ?_, ?_, ?_⟩
  · intro s m hm
    exact ⟨(step_terminal_flags s m hm).2, (step_terminal_flags s m hm).1⟩
  · intro s ht
    exact ⟨(step_timerFired_closed s ht).2.2, (step_timerFired_closed s ht).2.1⟩
  · intro s err
    refine ⟨fun hnone => ?_, ?_, ?_⟩
    · simp [step, settle, hnone]
    · simp [step, settle_workerTerminated]
    · simp [step, settle_timerActive]
  · intro s c hc
    refine ⟨fun hnone => ?_, ?_, ?_⟩
    · simp [step, hc, settle, hnone]
    · simp [step, hc, settle_workerTerminated]
    · simp [step, hc, settle_timerActive]

/-- Witness for C1 (amended) at a concrete state and message. -/
theorem renderLocally_settlement_and_termination_witness :
    (step initState (JobEvent.message (WorkerMsg.workerError "boom"))).workerTerminated
      = true :=
  (renderLocally_settlement_and_termination.2.1 initState
    (WorkerMsg.workerError "boom") rfl).1

/-- Claim C2: a worker success message with a non-empty `result.outputs`
resolves the job with the base64 encoding of the first entry's bytes,
whatever that entry's path is; a missing or empty `result.outputs` rejects
with the NoOutputProduced error text. -/
theorem resultExtraction_first_output :
    noOutputMessage = "No output produced by OpenSCAD WASM worker"
    ∧ (∀ (s : JobState) (p : String) (bytes : Bytes)
          (rest : List (String × Bytes)), s.settled = none →
        (step s (JobEvent.message
            (WorkerMsg.result (some ((p, bytes) :: rest))))).settled
          = some (Outcome.resolved (base64Encode bytes)))
    ∧ (∀ (s : JobState), s.settled = none →
        (step s (JobEvent.message (WorkerMsg.result (some [])))).settled
          = some (Outcome.rejected noOutputMessage))
    ∧ (∀ (s : JobState), s.settled = none →
        (step s (JobEvent.message (WorkerMsg.result none))).settled
          = some (Outcome.rejected noOutputMessage)) := by
  refine ⟨rfl, ?_, ?_, ?_⟩
  · intro s p bytes rest h
    simp [step, settle, h]
  · intro s h
    simp [step, settle, h]
  · intro s h
    simp [step, settle, h]

/-- Witness for C2: a first output whose path is not the requested
`output.stl` still resolves, with the base64 of its bytes. -/
theorem resultExtraction_first_output_witness :
    (step initState (JobEvent.message
        (WorkerMsg.result (some [("other.stl", [77, 97, 110])])))).settled
      = some (Outcome.resolved "TWFu") :=
  (resultExtraction_first_output.2.1 initState "other.stl" [77, 97, 110] []
      rfl).trans (by decide)

/-- Claim C3: settlement is single-assignment — a settled job is never
re-settled; a message with neither `result` nor `error` field leaves the
state untouched; and after the first terminal-shaped message (or after the
timer fires first) every later handler invocation, the race loser included,
is a no-op on the whole job state. -/
theorem settlement_race_single_assignment :
    (∀ (s : JobState) (o : Outcome) (e : JobEvent),
        s.settled = some o → (step s e).settled = some o)
    ∧ (∀ (s : JobState), step s (JobEvent.message WorkerMsg.nonTerminal) = s)
    ∧ (∀ (s : JobState) (m : WorkerMsg) (e : JobEvent), TerminalShaped m = true →
        step (step s (JobEvent.message m)) e = step s (JobEvent.message m))
    ∧ (∀ (s : JobState) (e : JobEvent), s.timerActive = true →
        step (step s JobEvent.timerFired) e = step s JobEvent.timerFired) := by
  refine ⟨fun s o e h => step_settled_mono s e o h, fun s => rfl, ?_, ?_⟩
  · intro s m e hm
    obtain ⟨o, ho⟩ := Option.isSome_iff_exists.mp (step_terminal_isSome s m hm)
    exact step_closed _ o ho (step_terminal_flags s m hm).1
      (step_terminal_flags s m hm).2 e
  · intro s e ht
    obtain ⟨h1, h2, h3⟩ := step_timerFired_closed s ht
    obtain ⟨o, ho⟩ := Option.isSome_iff_exists.mp h1
    exact step_closed _ o ho h2 h3 e

/-- Witness for C3: the timer fires first, then a result message arrives;
the message is a no-op on the job state. -/
theorem settlement_race_single_assignment_witness :
    step (step initState JobEvent.timerFired)
        (JobEvent.message (WorkerMsg.result (some [("output.stl", [0])])))
      = step initState JobEvent.timerFired :=
  settlement_race_single_assignment.2.2.2 initState
    (JobEvent.message (WorkerMsg.result (some [("output.stl", [0])]))) rfl

/-- Claim C6: the deadline is `parseInt(OPENSCAD_WASM_TIMEOUT, 10)`
milliseconds, defaulting to 120000 when the variable is unset, and a firing
deadline terminates the worker and rejects the still-pending job with the
Timeout error text. -/
theorem deadline_timer_config_and_expiry :
    timeoutMs none = some 120000
    ∧ (∀ (s : String), s ≠ "" → timeoutMs (some s) = jsParseInt s)
    ∧ timeoutMessage = "OpenSCAD WASM worker timed out"
    ∧ (∀ (s : JobState), s.timerActive = true →
        (step s JobEvent.timerFired).workerTerminated = true
        ∧ (s.settled = none →
            (step s JobEvent.timerFired).settled
              = some (Outcome.rejected timeoutMessage))) := by
  refine ⟨by decide, ?_, rfl, ?_⟩
  · intro s hs
    simp [timeoutMs, hs]
  · intro s ht
    refine ⟨(step_timerFired_closed s ht).2.2, fun hnone => ?_⟩
    simp [step, ht, settle, hnone]

/-- Witness for C6 at a configured 1 ms timeout and a fresh job. -/
theorem deadline_timer_config_and_expiry_witness :
    timeoutMs (some "1") = some 1
    ∧ (step initState JobEvent.timerFired).settled
        = some (Outcome.rejected timeoutMessage) := by
  refine ⟨(deadline_timer_config_and_expiry.2.1 "1" (by decide)).trans (by decide), ?_⟩
  exact (deadline_timer_config_and_expiry.2.2.2 initState rfl).2 rfl

/-- Claim C7: a request whose `scadCode` is missing or empty gets the 400
InvalidInput reply with text 'SCAD code is required', and `renderLocally`
is never invoked (no worker is spawned). -/
theorem emptyScad_rejected_without_worker :
    (∀ (render : String → Outcome),
        handleRenderRequest none render = (invalidInputResponse, false)
        ∧ handleRenderRequest (some "") render = (invalidInputResponse, false))
    ∧ invalidInputResponse.status = 400
    ∧ invalidInputResponse.errorField = some "SCAD code is required" := by
  exact ⟨fun render => ⟨rfl, by simp [handleRenderRequest]⟩, rfl, rfl⟩

/-- Claim C8, counterexample: two distinct non-InvalidInput failure kinds
(Timeout and NoOutputProduced) produce the very same `/api/render` response,
so the boundary does not carry kind-specific detail text. -/
theorem errorDetail_collapsed_counterexample :
    (handleRenderRequest (some "cube(1);")
        (fun _ => Outcome.rejected timeoutMessage)).1
      = (handleRenderRequest (some "cube(1);")
        (fun _ => Outcome.rejected noOutputMessage)).1
    ∧ timeoutMessage ≠ noOutputMessage := by
  exact ⟨rfl, by decide⟩

/-- Claim C8 (amended): every rejection of `renderLocally` is mapped by the
`/api/render` boundary to one fixed server-error (500) response with the
generic text 'Internal server error during rendering'; the failure kinds
stay distinguishable up to that boundary because the coordinator rejects
with pairwise distinct kind-specific messages. -/
theorem failures_serverError_generic :
    (∀ (code msg : String), code ≠ "" →
        handleRenderRequest (some code) (fun _ => Outcome.rejected msg)
          = ({ status := 500, stlData := none, scadCode := none,
               errorField := some genericServerErrorText }, true))
    ∧ timeoutMessage ≠ noOutputMessage
    ∧ timeoutMessage ≠ exitMessage 1
    ∧ noOutputMessage ≠ exitMessage 1 := by
  refine ⟨?_, by decide, by decide, by decide⟩
  intro code msg hc
  simp [handleRenderRequest, hc]

/-- Witness for C8 (amended) at a concrete script and failure. -/
theorem failures_serverError_generic_witness :
    handleRenderRequest (some "cube(1);")
        (fun _ => Outcome.rejected "worker fault")
      = ({ status := 500, stlData := none, scadCode := none,
           errorField := some genericServerErrorText }, true) :=
  failures_serverError_generic.1 "cube(1);" "worker fault" (by decide)

/-- Claim C4: the fetch shim is a total function into response objects (it
never rejects; `arrayBuffer`, `text`, `blob`, `clone` are defined on every
response it returns); an unresolved resource name, and likewise a failing
filesystem read, produce a response with a zero-length body rather than an
exception. -/
theorem fetch_never_rejects_graceful :
    ∀ (fs : Fs) (url : String),
      ResponseMock.arrayBuffer (fetchShim fs url) = (fetchShim fs url).body
      ∧ ResponseMock.clone (fetchShim fs url) = fetchShim fs url
      ∧ (firstExisting fs (distPaths (resourceNameOf url)) = none →
          (fetchShim fs url).body = [])
      ∧ (∀ (e : String),
          firstExisting fs (distPaths (resourceNameOf url))
              = some (FileOutcome.readFailure e) →
          (fetchShim fs url).body = []) := by
  intro fs url
  refine ⟨rfl, ?_, ?_, ?_⟩
  · rcases h : firstExisting fs (distPaths (resourceNameOf url)) with _ | o
    · simp [fetchShim, fetchForName, h, ResponseMock.clone, mkResponseMock, ite_self]
    · rcases o with bs | err <;>
        simp [fetchShim, fetchForName, h, ResponseMock.clone, mkResponseMock]
  · intro h
    simp [fetchShim, fetchForName, h, mkResponseMock, ite_self]
  · intro e h
    simp [fetchShim, fetchForName, h, mkResponseMock]

/-- Witness for C4 on an empty filesystem: the unresolved `.wasm` request
returns a zero-length body. -/
theorem fetch_never_rejects_graceful_witness :
    (fetchShim (fun _ => none) "missing.wasm").body = [] :=
  (fetch_never_rejects_graceful (fun _ => none) "missing.wasm").2.2.1 rfl

/-- Claim C10: every response returned by the fetch shim — resolved,
unresolved, or after a read failure — has `ok = true` and `status = 200`,
so the kernel cannot tell a missing or failed asset fetch from a successful
one by those fields. -/
theorem fetch_always_ok_200 :
    ∀ (fs : Fs) (url : String),
      (fetchShim fs url).ok = true ∧ (fetchShim fs url).status = 200 := by
  intro fs url
  rcases h : firstExisting fs (distPaths (resourceNameOf url)) with _ | o
  · simp [fetchShim, fetchForName, h, mkResponseMock, ite_self]
  · rcases o with bs | err <;> simp [fetchShim, fetchForName, h, mkResponseMock]

/-- Claim C5, counterexample: the source normalization
`replace(/\/$/, '')` strips a single trailing separator, not all of them:
on `"assets//"` the source resolver's logical resource name is the empty
string, while stripping all trailing separators (the claim's wording, see
`specResourceName`) would give `"assets"`. -/
theorem resolver_trailing_separator_counterexample :
    resourceNameOf "assets//" = ""
    ∧ specResourceName "assets//" = "assets"
    ∧ resourceNameOf "assets//" ≠ specResourceName "assets//" := by
  decide

/-- Claim C5 (amended): the resolver strips at most one trailing separator
before taking the final path segment as the logical resource name, then
probes the openscad-playground dist directory, its wasm subdirectory, and
the browserfs dist directory in that order, returning the bytes of the
first existing match. -/
theorem resolver_single_strip_probe_order :
    resourceNameOf "dir/openscad.wasm" = "openscad.wasm"
    ∧ resourceNameOf "dir/openscad.wasm/" = "openscad.wasm"
    ∧ resourceNameOf "dir//" = ""
    ∧ (∀ (fs : Fs) (url : String) (bs : Bytes),
        fs (distPath1 (resourceNameOf url)) = some (FileOutcome.okBytes bs) →
        (fetchShim fs url).body = bs)
    ∧ (∀ (fs : Fs) (url : String) (bs : Bytes),
        fs (distPath1 (resourceNameOf url)) = none →
        fs (distPath2 (resourceNameOf url)) = some (FileOutcome.okBytes bs) →
        (fetchShim fs url).body = bs)
    ∧ (∀ (fs : Fs) (url : String) (bs : Bytes),
        fs (distPath1 (resourceNameOf url)) = none →
        fs (distPath2 (resourceNameOf url)) = none →
        fs (distPath3 (resourceNameOf url)) = some (FileOutcome.okBytes bs) →
        (fetchShim fs url).body = bs) := by
  refine ⟨by decide, by decide, by decide, ?_, ?_, ?_⟩
  · intro fs url bs h1
    simp [fetchShim, fetchForName, firstExisting, distPaths, h1, mkResponseMock]
  · intro fs url bs h1 h2
    simp [fetchShim, fetchForName, firstExisting, distPaths, h1, h2, mkResponseMock]
  · intro fs url bs h1 h2 h3
    simp [fetchShim, fetchForName, firstExisting, distPaths, h1, h2, h3,
      mkResponseMock]

/-- Witness for C5 (amended): a file present only in the wasm subdirectory
is found by the second probe. -/
theorem resolver_single_strip_probe_order_witness :
    (fetchShim
        (fun p => if p = distPath2 "openscad.wasm"
                  then some (FileOutcome.okBytes [0, 97, 115, 109]) else none)
        "wasm/openscad.wasm/").body = [0, 97, 115, 109] :=
  resolver_single_strip_probe_order.2.2.2.2.1
    (fun p => if p = distPath2 "openscad.wasm"
              then some (FileOutcome.okBytes [0, 97, 115, 109]) else none)
    "wasm/openscad.wasm/" [0, 97, 115, 109] (by decide) (by decide)

/-- Claim C9: the `WebAssembly.instantiateStreaming` replacement resolves
the response to a complete buffer via `arrayBuffer()` and then performs
buffer-based instantiation, so its result equals buffer-based instantiation
of the same bytes; a rejected response promise propagates unchanged. -/
theorem instantiateStreaming_buffers_first :
    ∀ {Imports InstResult : Type}
      (instantiate : Bytes → Imports → Except String InstResult)
      (p : Except String ResponseMock) (r : ResponseMock) (imports : Imports),
      (p = Except.ok r →
        instantiateStreamingShim instantiate p imports
          = instantiate r.body imports)
      ∧ (∀ (e : String),
          instantiateStreamingShim instantiate (Except.error e) imports
            = Except.error e) := by
  intro Imports InstResult instantiate p r imports
  refine ⟨fun hp => ?_, fun e => rfl⟩
  subst hp
  rfl

/-- Witness for C9: streaming instantiation of a two-byte response equals
buffer-based instantiation of those two bytes. -/
theorem instantiateStreaming_buffers_first_witness :
    instantiateStreamingShim (fun (bs : Bytes) (_ : Unit) => Except.ok bs.length)
        (Except.ok (mkResponseMock [0, 97])) () = Except.ok 2 :=
  ((instantiateStreaming_buffers_first
      (fun (bs : Bytes) (_ : Unit) => Except.ok bs.length)
      (Except.ok (mkResponseMock [0, 97])) (mkResponseMock [0, 97]) ()).1
    rfl).trans rfl

end AutoCad
